import Mathlib

/-!
Verification of the Sphinx documentation configuration assembly in
`doc/source/conf.py` of the aali-flowkit repository.

The module body of `conf.py` is a straight-line sequence of assignments that
reads one line from the `VERSION` file, looks up the `DOCUMENTATION_CNAME`
environment variable, calls the external helper `get_version_match`, and
assembles a flat configuration consumed by Sphinx.  We embed that module body
as the function `assemble`, explicit in all of its external inputs:

* `get_version_match`, `ansys_logo_black`, `ansys_favicon`: values imported
  from the external `ansys_sphinx_theme` package, taken as parameters;
* `versionFile : Option (List String)`: the contents of the `VERSION` file as
  a list of lines (without trailing newlines), or `none` when the file cannot
  be opened (`open` raising `OSError`);
* `env_DOCUMENTATION_CNAME : Option String`: the state of the
  `DOCUMENTATION_CNAME` environment variable (`none` = unset);
* `year : Nat`: the current year as returned by `datetime.now().year`.

The result is `Except` over the configuration record: the only raise point in
the module body is the `open(...)` of the version file, so a missing file
yields `Except.error` and everything else yields `Except.ok`.
-/

/-- `f.readline()` on a file whose lines (newline characters stripped) are
`lines`: the first line, or the empty string at end of file. -/
def pyReadline (lines : List String) : String :=
  lines.headD ""

/-- Python `str.strip()` with no argument: remove leading and trailing
whitespace. -/
def pyStrip (s : String) : String :=
  s.trim

/-- `os.getenv(name, default)`: the variable's value when it is set,
otherwise the default. -/
def os_getenv (value : Option String) (dflt : String) : String :=
  value.getD dflt

/-- The `"switcher"` dictionary inside `html_theme_options`. -/
structure Switcher where
  json_url : String
  version_match : String
  deriving DecidableEq

/-- The `html_theme_options` dictionary of `conf.py`. -/
structure HtmlThemeOptions where
  github_url : String
  additional_breadcrumbs : List (String × String)
  switcher : Switcher
  check_switcher : Bool
  show_prev_next : Bool
  show_breadcrumbs : Bool
  use_edit_page_button : Bool
  deriving DecidableEq

/-- The value of the `source_suffix` option: `conf.py` first assigns the
plain string `".rst"` and later reassigns a dict from suffix to format. -/
inductive SourceSuffix where
  | str (s : String)
  | map (m : List (String × String))
  deriving DecidableEq

/-- The flat configuration assembled by the module body of `conf.py`:
one field per module-level configuration variable. -/
structure Config where
  project : String
  copyright : String
  author : String
  release : String
  version : String
  switcher_version : String
  cname : String
  html_theme : String
  html_short_title : String
  html_title : String
  html_logo : String
  html_favicon : String
  html_context : List (String × String)
  html_theme_options : HtmlThemeOptions
  extensions : List String
  templates_path : List String
  source_suffix : SourceSuffix
  master_doc : String
  myst_enable_extensions : List String
  myst_heading_anchors : Nat
  suppress_warnings : List String
  deriving DecidableEq

/-- The module body of `doc/source/conf.py`, assignment by assignment.
`get_version_match`, `ansys_logo_black` and `ansys_favicon` are the values
imported from `ansys_sphinx_theme`.  A missing `VERSION` file
(`versionFile = none`) makes the `open` call raise, which propagates out of
the module as `Except.error`; every other statement is infallible. -/
def assemble (get_version_match : String → String)
    (ansys_logo_black ansys_favicon : String)
    (versionFile : Option (List String))
    (env_DOCUMENTATION_CNAME : Option String)
    (year : Nat) : Except String Config :=
  match versionFile with
  | none => Except.error "OSError: cannot open VERSION file"
  | some lines =>
    let project := "aali-flowkit"
    let copyright := "(c) " ++ toString year ++ " ANSYS, Inc. All rights reserved"
    let author := "ANSYS, Inc."
    let version_file := pyStrip (pyReadline lines)
    let release := version_file
    let version := version_file
    let switcher_version := get_version_match version_file
    let cname := os_getenv env_DOCUMENTATION_CNAME
      "laughing-guide-5m1lvq6.pages.github.io"
    let html_theme := "ansys_sphinx_theme"
    let html_title := project
    let html_short_title := html_title
    let html_logo := ansys_logo_black
    let html_favicon := ansys_favicon
    let html_context :=
      [("github_user", "ansys"),
       ("github_repo", "aali-flowkit"),
       ("github_version", "main"),
       ("doc_path", "doc/source")]
    let html_theme_options : HtmlThemeOptions :=
      { github_url := "https://github.com/ansys/aali-flowkit"
        additional_breadcrumbs := [("Aali", "https://aali.docs.ansys.com/")]
        switcher :=
          { json_url := "https://" ++ cname ++ "/versions.json"
            version_match := switcher_version }
        check_switcher := false
        show_prev_next := false
        show_breadcrumbs := true
        use_edit_page_button := true }
    let extensions := ["sphinx_design", "sphinx_copybutton", "myst_parser"]
    let templates_path := ["_templates"]
    let source_suffix := SourceSuffix.str ".rst"
    let master_doc := "index"
    let source_suffix := SourceSuffix.map
      [(".rst", "restructuredtext"), (".md", "markdown")]
    let master_doc := "index"
    let myst_enable_extensions := ["replacements", "smartquotes"]
    let myst_heading_anchors := 3
    let suppress_warnings := ["myst.xref_missing"]
    Except.ok
      { project := project
        copyright := copyright
        author := author
        release := release
        version := version
        switcher_version := switcher_version
        cname := cname
        html_theme := html_theme
        html_short_title := html_short_title
        html_title := html_title
        html_logo := html_logo
        html_favicon := html_favicon
        html_context := html_context
        html_theme_options := html_theme_options
        extensions := extensions
        templates_path := templates_path
        source_suffix := source_suffix
        master_doc := master_doc
        myst_enable_extensions := myst_enable_extensions
        myst_heading_anchors := myst_heading_anchors
        suppress_warnings := suppress_warnings }

/-! ## Claims -/

/-- Claim C1: for every version file whose first line strips to `s`, the
assembled configuration has both `version` and `release` equal to `s`
exactly; the value does not mention the remaining lines, so later lines of
the file have no effect on either value. -/
theorem assemble_version_release (gvm : String → String) (logo fav : String)
    (l : String) (rest : List String) (env : Option String) (year : Nat) :
    ∃ c, assemble gvm logo fav (some (l :: rest)) env year = Except.ok c ∧
      c.version = pyStrip l ∧ c.release = pyStrip l :=
  ⟨_, rfl, rfl, rfl⟩

/-- Claim C2: when the `VERSION` file cannot be read, configuration assembly
propagates the read error to the caller; no default version is substituted
and no configuration is produced. -/
theorem assemble_missing_file (gvm : String → String) (logo fav : String)
    (env : Option String) (year : Nat) :
    assemble gvm logo fav none env year =
      Except.error "OSError: cannot open VERSION file" :=
  rfl

/-- Claim C3, counterexample: it is false that every configuration value
other than `version` and `release` is independent of the inputs — at the
concrete inputs below, changing only the `DOCUMENTATION_CNAME` environment
variable changes the assembled `cname` value. -/
theorem cname_not_static :
    ¬ (∀ (env₁ env₂ : Option String) (c₁ c₂ : Config),
        assemble id "logo" "favicon" (some ["1.0"]) env₁ 2025 = Except.ok c₁ →
        assemble id "logo" "favicon" (some ["1.0"]) env₂ 2025 = Except.ok c₂ →
        c₁.cname = c₂.cname) := by
  intro h
  have hc := h none (some "example.com") _ _ rfl rfl
  exact absurd hc (by decide)

/-- Claim C3, amended: `version`, `release`, `switcher_version`, `copyright`,
`cname` and the switcher entries of the theme options are the only values
derived from the inputs (version file, clock year, environment variable);
every other configuration value is a static literal (the logo and favicon
being the values imported from the theme package), as this full
characterisation of the assembled configuration shows. -/
theorem assemble_characterisation (gvm : String → String) (logo fav : String)
    (lines : List String) (env : Option String) (year : Nat) :
    ∃ c, assemble gvm logo fav (some lines) env year = Except.ok c ∧
      c.version = pyStrip (pyReadline lines) ∧
      c.release = pyStrip (pyReadline lines) ∧
      c.switcher_version = gvm (pyStrip (pyReadline lines)) ∧
      c.copyright = "(c) " ++ toString year ++ " ANSYS, Inc. All rights reserved" ∧
      c.cname = os_getenv env "laughing-guide-5m1lvq6.pages.github.io" ∧
      c.html_theme_options.switcher =
        { json_url := "https://" ++ c.cname ++ "/versions.json"
          version_match := gvm (pyStrip (pyReadline lines)) } ∧
      c.project = "aali-flowkit" ∧
      c.author = "ANSYS, Inc." ∧
      c.html_theme = "ansys_sphinx_theme" ∧
      c.html_short_title = "aali-flowkit" ∧
      c.html_title = "aali-flowkit" ∧
      c.html_logo = logo ∧
      c.html_favicon = fav ∧
      c.html_context =
        [("github_user", "ansys"), ("github_repo", "aali-flowkit"),
         ("github_version", "main"), ("doc_path", "doc/source")] ∧
      c.html_theme_options.github_url = "https://github.com/ansys/aali-flowkit" ∧
      c.html_theme_options.additional_breadcrumbs =
        [("Aali", "https://aali.docs.ansys.com/")] ∧
      c.html_theme_options.check_switcher = false ∧
      c.html_theme_options.show_prev_next = false ∧
      c.html_theme_options.show_breadcrumbs = true ∧
      c.html_theme_options.use_edit_page_button = true ∧
      c.extensions = ["sphinx_design", "sphinx_copybutton", "myst_parser"] ∧
      c.templates_path = ["_templates"] ∧
      c.source_suffix = SourceSuffix.map
        [(".rst", "restructuredtext"), (".md", "markdown")] ∧
      c.master_doc = "index" ∧
      c.myst_enable_extensions = ["replacements", "smartquotes"] ∧
      c.myst_heading_anchors = 3 ∧
      c.suppress_warnings = ["myst.xref_missing"] :=
  ⟨_, rfl, rfl, rfl, rfl, rfl, rfl, rfl, rfl, rfl, rfl, rfl, rfl, rfl, rfl,
    rfl, rfl, rfl, rfl, rfl, rfl, rfl, rfl, rfl, rfl, rfl, rfl, rfl, rfl⟩

/-- Claim C4: when `DOCUMENTATION_CNAME` is unset, the resolved hostname is
the hard-coded default literal. -/
theorem cname_default (gvm : String → String) (logo fav : String)
    (lines : List String) (year : Nat) :
    ∃ c, assemble gvm logo fav (some lines) none year = Except.ok c ∧
      c.cname = "laughing-guide-5m1lvq6.pages.github.io" :=
  ⟨_, rfl, rfl⟩

/-- Claim C5: when `DOCUMENTATION_CNAME` is set to `v`, the resolved
hostname is `v` and the default literal is not used. -/
theorem cname_from_env (gvm : String → String) (logo fav : String)
    (lines : List String) (v : String) (year : Nat) :
    ∃ c, assemble gvm logo fav (some lines) (some v) year = Except.ok c ∧
      c.cname = v :=
  ⟨_, rfl, rfl⟩

/-- Claim C6: the switcher token is the external helper `get_version_match`
applied to the exact version string read from the file, and the
`version_match` entry of the theme's switcher options equals that token. -/
theorem switcher_version_match (gvm : String → String) (logo fav : String)
    (lines : List String) (env : Option String) (year : Nat) :
    ∃ c, assemble gvm logo fav (some lines) env year = Except.ok c ∧
      c.switcher_version = gvm (pyStrip (pyReadline lines)) ∧
      c.html_theme_options.switcher.version_match = c.switcher_version :=
  ⟨_, rfl, rfl, rfl⟩

/-- Claim C7: reading the version file is the only fallible operation —
whenever the file is readable, assembly succeeds for every state of the
`DOCUMENTATION_CNAME` environment variable. -/
theorem assemble_total_on_readable (gvm : String → String) (logo fav : String)
    (lines : List String) (env : Option String) (year : Nat) :
    ∃ c, assemble gvm logo fav (some lines) env year = Except.ok c :=
  ⟨_, rfl⟩

/-- Claim C8: in the final configuration the `source_suffix` value is the
suffix-to-format mapping; the earlier plain-string assignment `".rst"` is
overridden and does not survive. -/
theorem source_suffix_final (gvm : String → String) (logo fav : String)
    (lines : List String) (env : Option String) (year : Nat) :
    ∃ c, assemble gvm logo fav (some lines) env year = Except.ok c ∧
      c.source_suffix = SourceSuffix.map
        [(".rst", "restructuredtext"), (".md", "markdown")] ∧
      c.source_suffix ≠ SourceSuffix.str ".rst" :=
  ⟨_, rfl, rfl, fun h => nomatch h⟩

/-- Claim C9: for every resolved hostname, the switcher's `json_url` equals
`"https://" ++ cname ++ "/versions.json"`. -/
theorem switcher_json_url (gvm : String → String) (logo fav : String)
    (lines : List String) (env : Option String) (year : Nat) :
    ∃ c, assemble gvm logo fav (some lines) env year = Except.ok c ∧
      c.html_theme_options.switcher.json_url =
        "https://" ++ c.cname ++ "/versions.json" :=
  ⟨_, rfl, rfl⟩

/-- Claim C10: assembly is deterministic in the first line of the version
file, the environment variable and the year (later file lines are
irrelevant); between two runs differing only in the year, every value other
than `copyright` is identical, and `copyright` differs only through the
embedded year. -/
theorem assemble_determinism (gvm : String → String) (logo fav : String)
    (l : String) (rest rest' : List String) (env : Option String)
    (y y' : Nat) :
    assemble gvm logo fav (some (l :: rest)) env y =
      assemble gvm logo fav (some (l :: rest')) env y ∧
    ∃ c c', assemble gvm logo fav (some (l :: rest)) env y = Except.ok c ∧
      assemble gvm logo fav (some (l :: rest)) env y' = Except.ok c' ∧
      c' = { c with copyright := c'.copyright } ∧
      c.copyright = "(c) " ++ toString y ++ " ANSYS, Inc. All rights reserved" ∧
      c'.copyright = "(c) " ++ toString y' ++ " ANSYS, Inc. All rights reserved" :=
  ⟨rfl, _, _, rfl, rfl, rfl, rfl, rfl⟩
